import Mathlib

/-!
Verification development for a small Django/Django-REST-framework CRUD
learning repository.  The request handlers of the repository are embedded
shallowly as pure Lean functions from (request data, store) to
(HTTP response, store).  JSON request bodies are modelled as association
lists of scalar JSON values; URL-resolved integer ids are modelled as
`Option Nat` arguments.  Type-coercion failures inside the ORM lookup
(e.g. a non-numeric string used as a primary key) are outside the
embedding: theorems about lookups constrain the id value to integer-like
scalars, where the embedding and the original code agree.
-/

namespace DRF

/-- Scalar JSON values, the payload vocabulary of every endpoint in the
repository (all DTO fields are scalars). -/
inductive JVal where
  | jnull
  | jbool (b : Bool)
  | jint (n : Int)
  | jstr (s : String)
  deriving Repr, DecidableEq

/-- A parsed JSON object: an association list from keys to scalar values,
standing for a Python dict. -/
abbrev JDict := List (String × JVal)

/-- Python `d.get(k)` / `d.get(k, None)`: the first binding of the key,
if any. -/
def jget (d : JDict) (k : String) : Option JVal :=
  (d.find? (fun p => p.1 == k)).map Prod.snd

/-- Python truthiness of a scalar JSON value: `None`, `False`, `0` and
the empty string are falsy. -/
def pyTruthy : JVal → Bool
  | .jnull => false
  | .jbool b => b
  | .jint n => n != 0
  | .jstr s => s != ""

/-- Python `str()` of a scalar JSON value, used in interpolated messages. -/
def pyShow : JVal → String
  | .jnull => "None"
  | .jbool b => if b then "True" else "False"
  | .jint n => toString n
  | .jstr s => s

/-- Django ORM coercion of a request-supplied scalar to an integer primary
key: integers pass through and numeric strings are parsed; anything on
which the real stack would raise a type error is `none`. -/
def coerceId : JVal → Option Int
  | .jint n => some n
  | .jstr s => s.toInt?
  | _ => none

/-- Values appearing in a rendered JSON response body: a scalar, one
serialized record, or a list of serialized records. -/
inductive RVal where
  | s (v : JVal)
  | rec1 (d : JDict)
  | recs (ds : List JDict)
  deriving Repr, DecidableEq

/-- A rendered HTTP response body: empty (204-style), raw text, or a JSON
object. -/
inductive RBody where
  | empty
  | text (t : String)
  | json (fs : List (String × RVal))
  deriving Repr, DecidableEq

/-- An HTTP response: status code and rendered body. -/
structure HResp where
  status : Nat
  body : RBody
  deriving Repr, DecidableEq

/-- Embed a flat JSON object as a response body. -/
def jdictBody (d : JDict) : RBody :=
  .json (d.map (fun p => (p.1, .s p.2)))

/-- Response body holding a single message string, the shape
`JsonResponse(\x7b'msg': ...\x7d)` produces. -/
def msgBody (m : String) : RBody :=
  .json [("msg", .s (.jstr m))]

/-- Does the rendered body contain the key/value pair anywhere (top-level
scalar field, inside a serialized record, or inside a record list)? -/
def bodyHasPair (b : RBody) (k : String) (v : JVal) : Bool :=
  match b with
  | .json fs => fs.any (fun p =>
      match p.2 with
      | .s w => p.1 == k && w == v
      | .rec1 d => d.any (fun q => q.1 == k && q.2 == v)
      | .recs ds => ds.any (fun d => d.any (fun q => q.1 == k && q.2 == v)))
  | _ => false

/-! ### Serializer field validation

DRF serializer fields, restricted to what the repository's serializers
declare: `CharField(max_length=...)` (required, non-blank strings),
`IntegerField` and `BooleanField`.  `run` returns the validated value or
`none` on a type/length failure; `fieldReq`/`fieldOpt` lift a field run to
a dict key, distinguishing required fields (absent key fails validation)
from optional ones (absent key validates to `none` and is simply left out
of `validated_data`). -/

/-- Validation of a `CharField(max_length=maxLen)` value: a non-blank
string within the length bound. -/
def charRun (maxLen : Nat) : JVal → Option String
  | .jstr s => if s = "" then none else if s.length ≤ maxLen then some s else none
  | _ => none

/-- Validation of an `IntegerField` value. -/
def intRun : JVal → Option Int
  | .jint n => some n
  | _ => none

/-- Validation of a `BooleanField` value. -/
def boolRun : JVal → Option Bool
  | .jbool b => some b
  | _ => none

/-- Run a required field against a dict: the key must be present and its
value must validate. -/
def fieldReq {α : Type} (run : JVal → Option α) (d : JDict) (k : String) :
    Option (Option α) :=
  match jget d k with
  | none => none
  | some v => (run v).map some

/-- Run an optional field against a dict: an absent key yields no
validated entry; a present value must validate. -/
def fieldOpt {α : Type} (run : JVal → Option α) (d : JDict) (k : String) :
    Option (Option α) :=
  match jget d k with
  | none => some none
  | some v => (run v).map some

/-- Run a field whose requiredness depends on the serializer's
`partial` flag (`rq = true` means required). -/
def fieldRun {α : Type} (rq : Bool) (run : JVal → Option α) (d : JDict) (k : String) :
    Option (Option α) :=
  if rq then fieldReq run d k else fieldOpt run d k

/-- One `"field": ["This field is required."]`-style error entry when the
field fails. -/
def fieldErr {α : Type} (rq : Bool) (run : JVal → Option α) (d : JDict) (k : String) :
    JDict :=
  match fieldRun rq run d k with
  | none => [(k, .jstr "This field is required.")]
  | some _ => []

/-! ## learnUpdate: `Employees` records and `EmployeesSerializer`
(src/deserializer/learnUpdate/serializers.py, views.py).
The `Employees` model of this sub-app is not under src/; its fields are
the serializer's DTO fields (name, phone, city) plus the surrogate
integer key the spec assigns to every record. -/

/-- Modelled from the spec: the learnUpdate `Employees` row (models.py is
missing from src/): surrogate integer identity plus the DTO fields
name, phone, city declared by `EmployeesSerializer`. -/
structure LUEmployee where
  id : Int
  name : String
  phone : String
  city : String
  deriving Repr, DecidableEq

/-- Validated data of `EmployeesSerializer` (fields present in the
request and validated; with `partial=True` any subset may be present). -/
structure LUValidated where
  name : Option String
  phone : Option String
  city : Option String
  deriving Repr, DecidableEq

/-- `EmployeesSerializer.is_valid` + `validated_data`
(src/deserializer/learnUpdate/serializers.py): CharFields with
max_length 50/15/50; `prtl` is the `partial` flag. -/
def luValidate (prtl : Bool) (d : JDict) : Option LUValidated :=
  match fieldRun (!prtl) (charRun 50) d "name",
        fieldRun (!prtl) (charRun 15) d "phone",
        fieldRun (!prtl) (charRun 50) d "city" with
  | some n, some p, some c => some ⟨n, p, c⟩
  | _, _, _ => none

/-- `EmployeesSerializer.errors` after a failed validation. -/
def luErrors (prtl : Bool) (d : JDict) : JDict :=
  fieldErr (!prtl) (charRun 50) d "name" ++
  fieldErr (!prtl) (charRun 15) d "phone" ++
  fieldErr (!prtl) (charRun 50) d "city"

/-- `EmployeesSerializer.update` (src/deserializer/learnUpdate/serializers.py):
each field becomes `validated_data.get(field, instance.field)`; the
instance is then saved. -/
def EmployeesSerializer.update (inst : LUEmployee) (vd : LUValidated) :
    LUEmployee :=
  { inst with
    name := vd.name.getD inst.name
    phone := vd.phone.getD inst.phone
    city := vd.city.getD inst.city }

/-- `instance.save()` on the learnUpdate store: the row with the
instance's primary key is overwritten. -/
def luSave (rows : List LUEmployee) (inst : LUEmployee) : List LUEmployee :=
  rows.map (fun r => if r.id == inst.id then inst else r)

/-- `EmployeesWork` (src/deserializer/learnUpdate/views.py).  The request
body arrives as the result of JSON parsing: `Except.error e` stands for a
parse exception with text `e`, caught by the outer `try` and turned into
the 500 response.  A PUT body with a falsy `id` (absent key, `None`, `0`,
`\"\"`) is rejected with 400; an unknown id gives 404; otherwise the
serializer runs with `partial=True` and a valid body updates the row. -/
def EmployeesWork (method : String) (body : Except String JDict)
    (rows : List LUEmployee) : HResp × List LUEmployee :=
  if method = "PUT" then
    match body with
    | .error e =>
        (⟨500, .json [("msg", .s (.jstr "Something went wrong")),
                      ("error", .s (.jstr e))]⟩, rows)
    | .ok updateData =>
        match jget updateData "id" with
        | none => (⟨400, msgBody "ID is required for update"⟩, rows)
        | some idv =>
            if pyTruthy idv then
              match rows.find? (fun r => coerceId idv == some r.id) with
              | none =>
                  (⟨404, msgBody ("Employee with id " ++ pyShow idv ++ " not found")⟩,
                   rows)
              | some instance_ =>
                  match luValidate true updateData with
                  | some vd =>
                      let inst := EmployeesSerializer.update instance_ vd
                      (⟨200, msgBody "Data Updated Successfully"⟩, luSave rows inst)
                  | none =>
                      (⟨400, .json [("msg", .s (.jstr "Update unsuccessful")),
                                    ("errors", .rec1 (luErrors true updateData))]⟩,
                       rows)
            else (⟨400, msgBody "ID is required for update"⟩, rows)
  else (⟨405, .text "Method Not Allowed"⟩, rows)

/-! ## GenericApiView: `Employees` rows and the mixin-based views
(src/GenericApiView/myApi/views.py).  The model and serializer files of
this sub-app are missing from src/; the row shape is the spec's Employee
(name, age, salary with default 10000) as also declared in
src/concreteView/apiView/models.py, and the mixin behaviours follow the
spec's component contracts (sections 4.1 and 4.2). -/

/-- Modelled from the spec: the `Employees` row of the GenericApiView
sub-app (models.py missing from src/): name (text), age (integer),
salary (integer, default 10000), surrogate integer identity. -/
structure Employee where
  id : Nat
  name : String
  age : Int
  salary : Int
  deriving Repr, DecidableEq

/-- The Employees store: rows plus the next surrogate key the store will
assign. -/
structure EmpDB where
  rows : List Employee
  nextId : Nat
  deriving Repr, DecidableEq

/-- `EmployeesSerializer(instance).data`: the serialized DTO, identity
included. -/
def serializeEmp (e : Employee) : JDict :=
  [("id", .jint e.id), ("name", .jstr e.name),
   ("age", .jint e.age), ("salary", .jint e.salary)]

/-- Validated data of the GenericApiView `EmployeesSerializer`. -/
structure EmpValidated where
  name : Option String
  age : Option Int
  salary : Option Int
  deriving Repr, DecidableEq

/-- Modelled from the spec: validation of the GenericApiView
`EmployeesSerializer` (serializers.py missing from src/): name and age
are required unless the update is partial; salary is optional because the
model declares a default. -/
def empValidate (prtl : Bool) (d : JDict) : Option EmpValidated :=
  match fieldRun (!prtl) (charRun 100) d "name",
        fieldRun (!prtl) intRun d "age",
        fieldOpt intRun d "salary" with
  | some n, some a, some s => some ⟨n, a, s⟩
  | _, _, _ => none

/-- Field-level errors of a failed GenericApiView validation. -/
def empErrors (prtl : Bool) (d : JDict) : JDict :=
  fieldErr (!prtl) (charRun 100) d "name" ++
  fieldErr (!prtl) intRun d "age" ++
  fieldErr false intRun d "salary"

/-- Apply validated data to an existing row: supplied fields overwrite,
absent fields keep the instance's values, identity is untouched. -/
def applyEmpUpdate (e : Employee) (vd : EmpValidated) : Employee :=
  { e with
    name := vd.name.getD e.name
    age := vd.age.getD e.age
    salary := vd.salary.getD e.salary }

/-- The row a successful create persists: store-assigned identity, the
validated fields, salary defaulting to 10000. -/
def createdEmp (db : EmpDB) (vd : EmpValidated) : Employee :=
  ⟨db.nextId, vd.name.getD "", vd.age.getD 0, vd.salary.getD 10000⟩

/-- Modelled from the spec: `EmployeesList.post`, delegating to
`CreateModelMixin.create`: validate, persist a new row under the
store-assigned identity (salary defaulting to 10000), answer 201 with the
created DTO; on validation failure answer 400 with the field errors. -/
def EmployeesList.post (body : JDict) (db : EmpDB) : HResp × EmpDB :=
  match empValidate false body with
  | some vd =>
      (⟨201, jdictBody (serializeEmp (createdEmp db vd))⟩,
       ⟨db.rows ++ [createdEmp db vd], db.nextId + 1⟩)
  | none => (⟨400, jdictBody (empErrors false body)⟩, db)

/-- Modelled from the spec: `EmployeesManipulation.get`, delegating to
`RetrieveModelMixin.retrieve`: the row with the path id as DTO, or 404. -/
def EmployeesManipulation.get (pk : Nat) (db : EmpDB) : HResp × EmpDB :=
  match db.rows.find? (fun e => e.id == pk) with
  | some e => (⟨200, jdictBody (serializeEmp e)⟩, db)
  | none => (⟨404, jdictBody [("detail", .jstr "Not found.")]⟩, db)

/-- Modelled from the spec: `UpdateModelMixin.update` /
`UpdateModelMixin.partial_update` behind `EmployeesManipulation.put` and
`EmployeesManipulation.patch`: resolve the id (404 when absent), validate
with the given `partial` flag, overwrite the supplied fields and answer
200 with the updated DTO, or 400 with the field errors. -/
def empUpdateHandler (prtl : Bool) (pk : Nat) (body : JDict) (db : EmpDB) :
    HResp × EmpDB :=
  match db.rows.find? (fun e => e.id == pk) with
  | none => (⟨404, jdictBody [("detail", .jstr "Not found.")]⟩, db)
  | some e =>
      match empValidate prtl body with
      | some vd =>
          let e2 := applyEmpUpdate e vd
          (⟨200, jdictBody (serializeEmp e2)⟩,
           ⟨db.rows.map (fun r => if r.id == pk then e2 else r), db.nextId⟩)
      | none => (⟨400, jdictBody (empErrors prtl body)⟩, db)

/-- `EmployeesManipulation.put`: full update, all required fields must be
present. -/
def EmployeesManipulation.put (pk : Nat) (body : JDict) (db : EmpDB) :
    HResp × EmpDB :=
  empUpdateHandler false pk body db

/-- `EmployeesManipulation.patch`: partial update, only supplied fields
change. -/
def EmployeesManipulation.patch (pk : Nat) (body : JDict) (db : EmpDB) :
    HResp × EmpDB :=
  empUpdateHandler true pk body db

/-- Modelled from the spec: `EmployeesManipulation.delete`, delegating to
`DestroyModelMixin.destroy`: remove the row and answer 204 with an empty
body, or 404. -/
def EmployeesManipulation.delete (pk : Nat) (db : EmpDB) : HResp × EmpDB :=
  match db.rows.find? (fun e => e.id == pk) with
  | some _ => (⟨204, .empty⟩, ⟨db.rows.filter (fun r => !(r.id == pk)), db.nextId⟩)
  | none => (⟨404, jdictBody [("detail", .jstr "Not found.")]⟩, db)

/-! ## functionBasedApi: `Notes` rows and the `notesApi` dispatcher
(src/functionBasedApi/myapi/views.py, urls.py).  The `Notes` model and
`NotesSerializer` files are missing from src/; the row shape is the
spec's Notes record (title, completed, created_at store-assigned), with
the fields also listed in src/functionBasedApi/myapi/admin.py. -/

/-- Modelled from the spec: the `Notes` row (models.py missing from
src/): title (text), completed (boolean), created_at (store-assigned
timestamp, modelled as a natural number), surrogate integer identity. -/
structure Note where
  id : Nat
  title : String
  completed : Bool
  created_at : Nat
  deriving Repr, DecidableEq

/-- The Notes store: rows, the next surrogate key, and the clock value the
store stamps onto a newly created row. -/
structure NotesDB where
  rows : List Note
  nextId : Nat
  now : Nat
  deriving Repr, DecidableEq

/-- `NotesSerializer(note).data`: the serialized DTO. -/
def serializeNote (n : Note) : JDict :=
  [("id", .jint n.id), ("title", .jstr n.title),
   ("completed", .jbool n.completed), ("created_at", .jint n.created_at)]

/-- Validated data of `NotesSerializer`. -/
structure NoteValidated where
  title : Option String
  completed : Option Bool
  deriving Repr, DecidableEq

/-- Modelled from the spec: validation of `NotesSerializer`
(serializers.py missing from src/): title is a required text field;
completed is optional (the model carries a default); created_at and id
are store-assigned and read-only. -/
def noteValidate (d : JDict) : Option NoteValidated :=
  match fieldReq (charRun 100) d "title",
        fieldOpt boolRun d "completed" with
  | some t, some c => some ⟨t, c⟩
  | _, _ => none

/-- Field-level errors of a failed `NotesSerializer` validation. -/
def noteErrors (d : JDict) : JDict :=
  fieldErr true (charRun 100) d "title" ++
  fieldErr false boolRun d "completed"

/-- `request.query_params.get('id', id)` (src/functionBasedApi/myapi/
views.py lines 10 and 52): the query parameter when present, otherwise
the URL path segment. -/
def resolveId (queryId pathId : Option Nat) : Option Nat :=
  match queryId with
  | some q => some q
  | none => pathId

/-- `request.data.get('id', None)` for the PUT branch: absent key and
JSON `null` are both Python `None`. -/
def putBodyId (body : JDict) : Option JVal :=
  match jget body "id" with
  | some .jnull => none
  | other => other

/-- The HTTP verbs `@api_view` admits for `notesApi`. -/
inductive Verb where
  | GET
  | POST
  | PUT
  | DELETE
  deriving Repr, DecidableEq

/-- `notesApi` (src/functionBasedApi/myapi/views.py): a single entry
point branching on the verb.  GET and DELETE resolve the id from the
query parameter with the path segment as fallback; PUT reads the id from
the request body; POST validates and inserts, answering only a message
(DRF's default 200). -/
def notesApi (v : Verb) (pathId queryId : Option Nat) (body : JDict)
    (db : NotesDB) : HResp × NotesDB :=
  match v with
  | .GET =>
      match resolveId queryId pathId with
      | some p =>
          match db.rows.find? (fun n => n.id == p) with
          | some note =>
              (⟨200, .json [("data", .rec1 (serializeNote note)),
                            ("msg", .s (.jstr "Note retrieved"))]⟩, db)
          | none => (⟨404, msgBody "Note not found"⟩, db)
      | none =>
          (⟨200, .json [("data", .recs (db.rows.map serializeNote)),
                        ("msg", .s (.jstr "All notes retrieved"))]⟩, db)
  | .POST =>
      match noteValidate body with
      | some vd =>
          let n : Note := ⟨db.nextId, vd.title.getD "", vd.completed.getD false, db.now⟩
          (⟨200, msgBody "Data is inserted successfully"⟩,
           ⟨db.rows ++ [n], db.nextId + 1, db.now⟩)
      | none =>
          (⟨400, .json [("error", .rec1 (noteErrors body)),
                        ("msg", .s (.jstr "Data insertion unsuccessfull"))]⟩, db)
  | .PUT =>
      match putBodyId body with
      | some idv =>
          match db.rows.find? (fun n => coerceId idv == some (n.id : Int)) with
          | some note =>
              match noteValidate body with
              | some vd =>
                  let n2 : Note := { note with
                    title := vd.title.getD note.title
                    completed := vd.completed.getD note.completed }
                  let rows2 := db.rows.map (fun r => if r.id == n2.id then n2 else r)
                  (⟨202, msgBody "Note updated succesfully"⟩, { db with rows := rows2 })
              | none =>
                  (⟨400, .json [("error", .rec1 (noteErrors body)),
                                ("msg", .s (.jstr "Note update unsuccessfull"))]⟩, db)
          | none => (⟨404, msgBody "Note not found"⟩, db)
      | none => (⟨400, msgBody "ID is required for update operation"⟩, db)
  | .DELETE =>
      match resolveId queryId pathId with
      | some p =>
          match db.rows.find? (fun n => n.id == p) with
          | some _ =>
              (⟨204, msgBody "Note deleted successfully"⟩,
               { db with rows := db.rows.filter (fun r => !(r.id == p)) })
          | none => (⟨404, msgBody "Note not found"⟩, db)
      | none => (⟨400, msgBody "ID is required for deelete operation"⟩, db)

/-! ## learn1: `student_list` (src/deserializer/learn1/views.py).
The `StudentSerializer` file (seerializers.py) is missing from src/. -/

/-- Modelled from the spec: the Student DTO (seerializers.py missing from
src/): the fields the client script src/extApp1.py submits — name (text),
roll (integer), city (text). -/
structure Student where
  name : String
  roll : Int
  city : String
  deriving Repr, DecidableEq

/-- Modelled from the spec: `StudentSerializer` validation, all three
declared fields required. -/
def studentValidate (d : JDict) : Option Student :=
  match fieldReq (charRun 100) d "name",
        fieldReq intRun d "roll",
        fieldReq (charRun 100) d "city" with
  | some (some n), some (some r), some (some c) => some ⟨n, r, c⟩
  | _, _, _ => none

/-- Field-level errors of a failed `StudentSerializer` validation. -/
def studentErrors (d : JDict) : JDict :=
  fieldErr true (charRun 100) d "name" ++
  fieldErr true intRun d "roll" ++
  fieldErr true (charRun 100) d "city"

/-- `student_list` (src/deserializer/learn1/views.py): POST only.  A
valid body is saved and answered with a success message; an invalid body
is answered with the rendered serializer errors — in both cases through a
plain `HttpResponse`, whose status defaults to 200.  Any other method is
answered 405. -/
def student_list (method : String) (body : JDict) (store : List Student) :
    HResp × List Student :=
  if method = "POST" then
    match studentValidate body with
    | some st =>
        (⟨200, jdictBody [("msg", .jstr "Data inserted Successfully")]⟩,
         store ++ [st])
    | none => (⟨200, jdictBody (studentErrors body)⟩, store)
  else (⟨405, jdictBody [("msg", .jstr "Only POST allowed")]⟩, store)

/-! ## Helper lemmas about `List.find?` used to reason about row lookup,
row replacement (`save`) and row removal (`delete`) on the stores. -/

/-- If the first row matching `q` is `a`, and `p` is a predicate that
holds of `a` and implies `q`, then `a` is also the first row matching
`p`. -/
theorem find?_switch {α : Type} (q p : α → Bool) (l : List α) (a : α)
    (h : l.find? q = some a) (hpa : p a = true)
    (himp : ∀ x, p x = true → q x = true) :
    l.find? p = some a := by
  induction l with
  | nil => simp at h
  | cons x t ih =>
    by_cases hq : q x
    · rw [List.find?_cons_of_pos _ hq] at h
      cases h
      exact List.find?_cons_of_pos _ hpa
    · rw [List.find?_cons_of_neg _ hq] at h
      have hpx : ¬p x = true := fun hp => hq (himp x hp)
      rw [List.find?_cons_of_neg _ (by simpa using hpx)]
      exact ih h

/-- Replacing the first row matching `p` (and every later match) by a row
that still matches `p` makes that row the first match. -/
theorem find?_map_replace {α : Type} (p : α → Bool) (e2 : α) (l : List α)
    (a : α) (h : l.find? p = some a) (he2 : p e2 = true) :
    (l.map (fun r => if p r then e2 else r)).find? p = some e2 := by
  induction l with
  | nil => simp at h
  | cons x t ih =>
    by_cases hp : p x
    · simp only [List.map_cons, if_pos hp]
      exact List.find?_cons_of_pos _ he2
    · rw [List.find?_cons_of_neg _ hp] at h
      simp only [List.map_cons, if_neg hp]
      rw [List.find?_cons_of_neg _ hp]
      exact ih h

/-- A search over an appended list skips a prefix with no match. -/
theorem find?_append_of_none {α : Type} (p : α → Bool) (l1 l2 : List α)
    (h : l1.find? p = none) : (l1 ++ l2).find? p = l2.find? p := by
  induction l1 with
  | nil => simp
  | cons x t ih =>
    by_cases hp : p x
    · rw [List.find?_cons_of_pos _ hp] at h
      cases h
    · rw [List.find?_cons_of_neg _ hp] at h
      simp only [List.cons_append]
      rw [List.find?_cons_of_neg _ hp]
      exact ih h

/-- After filtering out every row matching `p`, no row matching `p` can
be found. -/
theorem find?_filter_not {α : Type} (p : α → Bool) (l : List α) :
    (l.filter (fun r => !p r)).find? p = none := by
  rw [List.find?_eq_none]
  intro x hx
  rcases List.mem_filter.1 hx with ⟨_, hnp⟩
  simp at hnp
  simp [hnp]

/-! ## Validator extraction lemmas -/

/-- A successful partial-mode run of `EmployeesSerializer` determines
each validated field from its dict entry. -/
theorem luValidate_true_parts (d : JDict) (vd : LUValidated)
    (h : luValidate true d = some vd) :
    fieldOpt (charRun 50) d "name" = some vd.name ∧
    fieldOpt (charRun 15) d "phone" = some vd.phone ∧
    fieldOpt (charRun 50) d "city" = some vd.city := by
  rcases hn : fieldOpt (charRun 50) d "name" with _ | n <;>
    rcases hp : fieldOpt (charRun 15) d "phone" with _ | p <;>
      rcases hc : fieldOpt (charRun 50) d "city" with _ | c <;>
        simp [luValidate, fieldRun, hn, hp, hc] at h
  subst h
  exact ⟨rfl, rfl, rfl⟩

/-- A successful partial-mode run of the GenericApiView serializer
determines each validated field from its dict entry. -/
theorem empValidate_true_parts (d : JDict) (vd : EmpValidated)
    (h : empValidate true d = some vd) :
    fieldOpt (charRun 100) d "name" = some vd.name ∧
    fieldOpt intRun d "age" = some vd.age ∧
    fieldOpt intRun d "salary" = some vd.salary := by
  rcases hn : fieldOpt (charRun 100) d "name" with _ | n <;>
    rcases ha : fieldOpt intRun d "age" with _ | a <;>
      rcases hs : fieldOpt intRun d "salary" with _ | s <;>
        simp [empValidate, fieldRun, hn, ha, hs] at h
  subst h
  exact ⟨rfl, rfl, rfl⟩

/-- A successful full-mode run of the GenericApiView serializer
determines each validated field from its dict entry. -/
theorem empValidate_false_parts (d : JDict) (vd : EmpValidated)
    (h : empValidate false d = some vd) :
    fieldReq (charRun 100) d "name" = some vd.name ∧
    fieldReq intRun d "age" = some vd.age ∧
    fieldOpt intRun d "salary" = some vd.salary := by
  rcases hn : fieldReq (charRun 100) d "name" with _ | n <;>
    rcases ha : fieldReq intRun d "age" with _ | a <;>
      rcases hs : fieldOpt intRun d "salary" with _ | s <;>
        simp [empValidate, fieldRun, hn, ha, hs] at h
  subst h
  exact ⟨rfl, rfl, rfl⟩

/-- An absent optional field validates to no entry. -/
theorem fieldOpt_absent {α : Type} (run : JVal → Option α) (d : JDict)
    (k : String) (h : jget d k = none) : fieldOpt run d k = some none := by
  simp [fieldOpt, h]

/-- A present optional field validates to its run result. -/
theorem fieldOpt_present {α : Type} (run : JVal → Option α) (d : JDict)
    (k : String) (v : JVal) (h : jget d k = some v) :
    fieldOpt run d k = (run v).map some := by
  simp [fieldOpt, h]

/-- A value a `CharField` accepts is the string it validates to. -/
theorem charRun_eq_some (maxLen : Nat) (v : JVal) (s : String)
    (h : charRun maxLen v = some s) : v = .jstr s := by
  cases v with
  | jstr s0 =>
      simp only [charRun] at h
      split_ifs at h
      simp_all
  | jnull => simp [charRun] at h
  | jbool b => simp [charRun] at h
  | jint n => simp [charRun] at h

/-- A value an `IntegerField` accepts is the integer it validates to. -/
theorem intRun_eq_some (v : JVal) (n : Int) (h : intRun v = some n) :
    v = .jint n := by
  cases v <;> simp [intRun] at h
  simp [h]

/-- A value a `BooleanField` accepts is the boolean it validates to. -/
theorem boolRun_eq_some (v : JVal) (b : Bool) (h : boolRun v = some b) :
    v = .jbool b := by
  cases v <;> simp [boolRun] at h
  simp [h]

/-! ## Claim theorems -/

/-- C1: For every partial update — PATCH on /Employees/\x7bid\x7d/ via
`UpdateModelMixin.partial_update`, or the manual PUT handler running the
serializer with `partial=True` — every field of the stored record that is
not supplied in the request payload retains its previous value after the
update, and a supplied field changes exactly to the supplied value. -/
theorem c1_unsupplied_fields_unchanged
    (d : JDict) (idv : JVal) (rows : List LUEmployee) (inst : LUEmployee)
    (vd : LUValidated)
    (hid : jget d "id" = some idv) (ht : pyTruthy idv = true)
    (hfind : rows.find? (fun r => coerceId idv == some r.id) = some inst)
    (hval : luValidate true d = some vd)
    (pk : Nat) (body : JDict) (db : EmpDB) (e : Employee) (vd2 : EmpValidated)
    (hfind2 : db.rows.find? (fun r => r.id == pk) = some e)
    (hval2 : empValidate true body = some vd2) :
    ((EmployeesWork "PUT" (.ok d) rows).1.status = 200 ∧
     (EmployeesWork "PUT" (.ok d) rows).2.find? (fun r => r.id == inst.id)
        = some (EmployeesSerializer.update inst vd) ∧
     (EmployeesSerializer.update inst vd).id = inst.id ∧
     (jget d "name" = none → (EmployeesSerializer.update inst vd).name = inst.name) ∧
     (jget d "phone" = none → (EmployeesSerializer.update inst vd).phone = inst.phone) ∧
     (jget d "city" = none → (EmployeesSerializer.update inst vd).city = inst.city) ∧
     (∀ v, jget d "name" = some v → v = .jstr (EmployeesSerializer.update inst vd).name) ∧
     (∀ v, jget d "phone" = some v → v = .jstr (EmployeesSerializer.update inst vd).phone) ∧
     (∀ v, jget d "city" = some v → v = .jstr (EmployeesSerializer.update inst vd).city)) ∧
    ((EmployeesManipulation.patch pk body db).1.status = 200 ∧
     (EmployeesManipulation.patch pk body db).2.rows.find? (fun r => r.id == pk)
        = some (applyEmpUpdate e vd2) ∧
     (applyEmpUpdate e vd2).id = e.id ∧
     (jget body "name" = none → (applyEmpUpdate e vd2).name = e.name) ∧
     (jget body "age" = none → (applyEmpUpdate e vd2).age = e.age) ∧
     (jget body "salary" = none → (applyEmpUpdate e vd2).salary = e.salary) ∧
     (∀ v, jget body "name" = some v → v = .jstr (applyEmpUpdate e vd2).name) ∧
     (∀ v, jget body "age" = some v → v = .jint (applyEmpUpdate e vd2).age) ∧
     (∀ v, jget body "salary" = some v → v = .jint (applyEmpUpdate e vd2).salary)) := by
  obtain ⟨hn, hp, hc⟩ := luValidate_true_parts d vd hval
  obtain ⟨hn2, ha2, hs2⟩ := empValidate_true_parts body vd2 hval2
  have hq : (coerceId idv == some inst.id) = true := by
    simpa using List.find?_some hfind
  have hfindp : rows.find? (fun r => r.id == inst.id) = some inst := by
    refine find?_switch _ _ rows inst hfind (by simp) ?_
    intro x hx
    have : x.id = inst.id := by simpa using hx
    rw [this]
    exact hq
  have hqe : (e.id == pk) = true := by
    simpa using List.find?_some hfind2
  constructor
  · refine ⟨?_, ?_, ?_, ?_, ?_, ?_, ?_, ?_, ?_⟩
    · simp [EmployeesWork, hid, ht, hfind, hval]
    · simp only [EmployeesWork, hid, ht, hfind, hval]
      simp only [reduceIte, ht]
      exact find?_map_replace (fun r => r.id == inst.id)
        (EmployeesSerializer.update inst vd) rows inst hfindp
        (by simp [EmployeesSerializer.update])
    · simp [EmployeesSerializer.update]
    · intro habs
      rw [fieldOpt_absent _ _ _ habs] at hn
      simp [EmployeesSerializer.update, ← Option.some_inj.1 hn]
    · intro habs
      rw [fieldOpt_absent _ _ _ habs] at hp
      simp [EmployeesSerializer.update, ← Option.some_inj.1 hp]
    · intro habs
      rw [fieldOpt_absent _ _ _ habs] at hc
      simp [EmployeesSerializer.update, ← Option.some_inj.1 hc]
    · intro v hv
      rw [fieldOpt_present _ _ _ _ hv] at hn
      rcases hr : charRun 50 v with _ | s
      · rw [hr] at hn; simp at hn
      · rw [hr] at hn
        simp only [Option.map_some'] at hn
        rw [charRun_eq_some 50 v s hr]
        simp [EmployeesSerializer.update, ← Option.some_inj.1 hn]
    · intro v hv
      rw [fieldOpt_present _ _ _ _ hv] at hp
      rcases hr : charRun 15 v with _ | s
      · rw [hr] at hp; simp at hp
      · rw [hr] at hp
        simp only [Option.map_some'] at hp
        rw [charRun_eq_some 15 v s hr]
        simp [EmployeesSerializer.update, ← Option.some_inj.1 hp]
    · intro v hv
      rw [fieldOpt_present _ _ _ _ hv] at hc
      rcases hr : charRun 50 v with _ | s
      · rw [hr] at hc; simp at hc
      · rw [hr] at hc
        simp only [Option.map_some'] at hc
        rw [charRun_eq_some 50 v s hr]
        simp [EmployeesSerializer.update, ← Option.some_inj.1 hc]
  · refine ⟨?_, ?_, ?_, ?_, ?_, ?_, ?_, ?_, ?_⟩
    · simp [EmployeesManipulation.patch, empUpdateHandler, hfind2, hval2]
    · simp only [EmployeesManipulation.patch, empUpdateHandler, hfind2, hval2]
      exact find?_map_replace (fun r => r.id == pk)
        (applyEmpUpdate e vd2) db.rows e hfind2 (by simpa [applyEmpUpdate] using hqe)
    · simp [applyEmpUpdate]
    · intro habs
      rw [fieldOpt_absent _ _ _ habs] at hn2
      simp [applyEmpUpdate, ← Option.some_inj.1 hn2]
    · intro habs
      rw [fieldOpt_absent _ _ _ habs] at ha2
      simp [applyEmpUpdate, ← Option.some_inj.1 ha2]
    · intro habs
      rw [fieldOpt_absent _ _ _ habs] at hs2
      simp [applyEmpUpdate, ← Option.some_inj.1 hs2]
    · intro v hv
      rw [fieldOpt_present _ _ _ _ hv] at hn2
      rcases hr : charRun 100 v with _ | s
      · rw [hr] at hn2; simp at hn2
      · rw [hr] at hn2
        simp only [Option.map_some'] at hn2
        rw [charRun_eq_some 100 v s hr]
        simp [applyEmpUpdate, ← Option.some_inj.1 hn2]
    · intro v hv
      rw [fieldOpt_present _ _ _ _ hv] at ha2
      rcases hr : intRun v with _ | n
      · rw [hr] at ha2; simp at ha2
      · rw [hr] at ha2
        simp only [Option.map_some'] at ha2
        rw [intRun_eq_some v n hr]
        simp [applyEmpUpdate, ← Option.some_inj.1 ha2]
    · intro v hv
      rw [fieldOpt_present _ _ _ _ hv] at hs2
      rcases hr : intRun v with _ | n
      · rw [hr] at hs2; simp at hs2
      · rw [hr] at hs2
        simp only [Option.map_some'] at hs2
        rw [intRun_eq_some v n hr]
        simp [applyEmpUpdate, ← Option.some_inj.1 hs2]

/-- Witness for C1: a concrete partial update through each handler — the
manual PUT supplies only `name` and leaves phone and city unchanged; the
PATCH supplies only `salary` and leaves name and age unchanged. -/
theorem c1_witness :
    ((EmployeesWork "PUT"
        (.ok [("id", JVal.jint 1), ("name", JVal.jstr "N")])
        [⟨1, "a", "p", "c"⟩]).2.find? (fun r => r.id == (1 : Int))
      = some ⟨1, "N", "p", "c"⟩) ∧
    ((EmployeesManipulation.patch 1 [("salary", JVal.jint 70000)]
        ⟨[⟨1, "Ann", 30, 50000⟩], 2⟩).2.rows.find? (fun r => r.id == (1 : Nat))
      = some ⟨1, "Ann", 30, 70000⟩) := by
  have h := c1_unsupplied_fields_unchanged
    [("id", JVal.jint 1), ("name", JVal.jstr "N")] (JVal.jint 1)
    [⟨1, "a", "p", "c"⟩] ⟨1, "a", "p", "c"⟩ ⟨some "N", none, none⟩
    (by decide) (by decide) (by decide) (by decide)
    1 [("salary", JVal.jint 70000)] ⟨[⟨1, "Ann", 30, 50000⟩], 2⟩
    ⟨1, "Ann", 30, 50000⟩ ⟨none, none, some 70000⟩
    (by decide) (by decide)
  exact ⟨h.1.2.1, h.2.2.1⟩

/-- C2: For every PUT to the manual JSON update handler `EmployeesWork`:
a body with no `id` key gives the 400 client error; a provided,
truthy, integer-like `id` matching no stored record gives the 404
not-found error; and a parse exception is caught and turned into a 500
response whose body carries the exception's text.  In each case the store
is untouched. -/
theorem c2_employeesWork_error_contract
    (rows : List LUEmployee) (d : JDict) (idv : JVal) (e : String) :
    (jget d "id" = none →
      EmployeesWork "PUT" (.ok d) rows
        = (⟨400, msgBody "ID is required for update"⟩, rows)) ∧
    (jget d "id" = some idv → pyTruthy idv = true →
      (coerceId idv).isSome = true →
      rows.find? (fun r => coerceId idv == some r.id) = none →
      EmployeesWork "PUT" (.ok d) rows
        = (⟨404, msgBody ("Employee with id " ++ pyShow idv ++ " not found")⟩, rows)) ∧
    (EmployeesWork "PUT" (.error e) rows
      = (⟨500, .json [("msg", .s (.jstr "Something went wrong")),
                      ("error", .s (.jstr e))]⟩, rows)) := by
  refine ⟨?_, ?_, ?_⟩
  · intro h
    simp [EmployeesWork, h]
  · intro h ht _ hf
    simp [EmployeesWork, h, ht, hf]
  · simp [EmployeesWork]

/-- Witness for C2: the three error branches at concrete inputs — an
empty body, an unknown id 7, and a parse exception "boom". -/
theorem c2_witness :
    (EmployeesWork "PUT" (.ok []) []
      = (⟨400, msgBody "ID is required for update"⟩, [])) ∧
    (EmployeesWork "PUT" (.ok [("id", JVal.jint 7)]) [⟨1, "a", "p", "c"⟩]
      = (⟨404, msgBody ("Employee with id " ++ pyShow (JVal.jint 7) ++ " not found")⟩,
         [⟨1, "a", "p", "c"⟩])) ∧
    (EmployeesWork "PUT" (.error "boom") []
      = (⟨500, .json [("msg", .s (.jstr "Something went wrong")),
                      ("error", .s (.jstr "boom"))]⟩, [])) :=
  ⟨(c2_employeesWork_error_contract [] [] (.jint 0) "x").1 (by decide),
   (c2_employeesWork_error_contract [⟨1, "a", "p", "c"⟩] [("id", JVal.jint 7)]
      (.jint 7) "x").2.1 (by decide) (by decide) (by decide) (by decide),
   (c2_employeesWork_error_contract [] [] (.jint 0) "boom").2.2⟩

/-- C3: An update (manual PUT on `EmployeesWork`, PUT branch of
`notesApi`) or delete (DELETE branch of `notesApi`) whose provided,
integer-like ID matches no stored record answers exactly the 404
not-found response — hence never a 500 — and leaves the store
unchanged. -/
theorem c3_unknown_id_not_found
    (rows : List LUEmployee) (d : JDict) (idv : JVal)
    (db : NotesDB) (body : JDict) (bidv : JVal)
    (pathId queryId : Option Nat) (p : Nat) :
    (jget d "id" = some idv → pyTruthy idv = true →
      (coerceId idv).isSome = true →
      rows.find? (fun r => coerceId idv == some r.id) = none →
      (EmployeesWork "PUT" (.ok d) rows).1.status = 404 ∧
      (EmployeesWork "PUT" (.ok d) rows).2 = rows) ∧
    (putBodyId body = some bidv → (coerceId bidv).isSome = true →
      db.rows.find? (fun n => coerceId bidv == some (n.id : Int)) = none →
      notesApi .PUT pathId queryId body db = (⟨404, msgBody "Note not found"⟩, db)) ∧
    (resolveId queryId pathId = some p →
      db.rows.find? (fun n => n.id == p) = none →
      notesApi .DELETE pathId queryId body db
        = (⟨404, msgBody "Note not found"⟩, db)) := by
  refine ⟨?_, ?_, ?_⟩
  · intro h ht _ hf
    simp [EmployeesWork, h, ht, hf]
  · intro h _ hf
    simp [notesApi, h, hf]
  · intro h hf
    simp [notesApi, h, hf]

/-- Witness for C3: unknown id 9 against singleton stores, through all
three handlers. -/
theorem c3_witness :
    ((EmployeesWork "PUT" (.ok [("id", JVal.jint 9)]) [⟨1, "a", "p", "c"⟩]).1.status = 404 ∧
     (EmployeesWork "PUT" (.ok [("id", JVal.jint 9)]) [⟨1, "a", "p", "c"⟩]).2
       = [⟨1, "a", "p", "c"⟩]) ∧
    (notesApi .PUT none none [("id", JVal.jint 9), ("title", JVal.jstr "t")]
        ⟨[⟨1, "n", false, 5⟩], 2, 9⟩
      = (⟨404, msgBody "Note not found"⟩, ⟨[⟨1, "n", false, 5⟩], 2, 9⟩)) ∧
    (notesApi .DELETE (some 9) none [] ⟨[⟨1, "n", false, 5⟩], 2, 9⟩
      = (⟨404, msgBody "Note not found"⟩, ⟨[⟨1, "n", false, 5⟩], 2, 9⟩)) :=
  ⟨(c3_unknown_id_not_found [⟨1, "a", "p", "c"⟩] [("id", JVal.jint 9)] (.jint 9)
      ⟨[], 1, 0⟩ [] (.jint 0) none none 0).1
      (by decide) (by decide) (by decide) (by decide),
   (c3_unknown_id_not_found [] [] (.jint 0)
      ⟨[⟨1, "n", false, 5⟩], 2, 9⟩ [("id", JVal.jint 9), ("title", JVal.jstr "t")]
      (.jint 9) none none 0).2.1 (by decide) (by decide) (by decide),
   (c3_unknown_id_not_found [] [] (.jint 0)
      ⟨[⟨1, "n", false, 5⟩], 2, 9⟩ [] (.jint 0) (some 9) none 9).2.2
      (by decide) (by decide)⟩

/-- C9: The missing-ID check of `EmployeesWork` tests Python falsiness,
not key absence: a PUT body whose `id` key is present with a falsy value
(`0`, the empty string, or `null`) is answered with the 400
"ID is required" response and the store is untouched — so a record whose
identity is `0` can never be updated through this endpoint. -/
theorem c9_falsy_id_gives_400
    (rows : List LUEmployee) (d : JDict) (idv : JVal)
    (hid : jget d "id" = some idv) (hf : pyTruthy idv = false) :
    EmployeesWork "PUT" (.ok d) rows
      = (⟨400, msgBody "ID is required for update"⟩, rows) := by
  simp [EmployeesWork, hid, hf]

/-- Witness for C9: the falsy values `0`, `""` and `null` are all
rejected with 400, even when a record with identity 0 is stored. -/
theorem c9_witness :
    (EmployeesWork "PUT" (.ok [("id", JVal.jint 0), ("name", JVal.jstr "X")])
        [⟨0, "a", "p", "c"⟩]
      = (⟨400, msgBody "ID is required for update"⟩, [⟨0, "a", "p", "c"⟩])) ∧
    (EmployeesWork "PUT" (.ok [("id", JVal.jstr "")]) []
      = (⟨400, msgBody "ID is required for update"⟩, [])) ∧
    (EmployeesWork "PUT" (.ok [("id", JVal.jnull)]) []
      = (⟨400, msgBody "ID is required for update"⟩, [])) :=
  ⟨c9_falsy_id_gives_400 [⟨0, "a", "p", "c"⟩]
      [("id", JVal.jint 0), ("name", JVal.jstr "X")] (.jint 0)
      (by decide) (by decide),
   c9_falsy_id_gives_400 [] [("id", JVal.jstr "")] (.jstr "") (by decide) (by decide),
   c9_falsy_id_gives_400 [] [("id", JVal.jnull)] .jnull (by decide) (by decide)⟩

/-- C10: In `notesApi`, GET and DELETE resolve the record ID from the
`id` query parameter when it is present — the path segment is then
irrelevant — and fall back to the path segment otherwise; a GET carrying
both resolves the record whose identity is the query-parameter value. -/
theorem c10_query_param_precedence
    (p q : Nat) (pathId : Option Nat) (body : JDict) (db : NotesDB) :
    resolveId (some q) (some p) = some q ∧
    resolveId none (some p) = some p ∧
    notesApi .GET pathId (some q) body db = notesApi .GET none (some q) body db ∧
    notesApi .DELETE pathId (some q) body db = notesApi .DELETE none (some q) body db ∧
    notesApi .GET (some p) none body db = notesApi .GET none (some p) body db ∧
    notesApi .DELETE (some p) none body db = notesApi .DELETE none (some p) body db ∧
    (∀ note, db.rows.find? (fun n => n.id == q) = some note →
      notesApi .GET (some p) (some q) body db
        = (⟨200, .json [("data", .rec1 (serializeNote note)),
                        ("msg", .s (.jstr "Note retrieved"))]⟩, db)) := by
  refine ⟨rfl, rfl, rfl, rfl, rfl, rfl, ?_⟩
  intro note hfind
  simp [notesApi, resolveId, hfind]

/-- Witness for C10: with path id 1 and query id 2 present together, the
record with identity 2 is the one retrieved. -/
theorem c10_witness :
    notesApi .GET (some 1) (some 2) []
        ⟨[⟨1, "one", false, 5⟩, ⟨2, "two", true, 6⟩], 3, 9⟩
      = (⟨200, .json [("data", .rec1 (serializeNote ⟨2, "two", true, 6⟩)),
                      ("msg", .s (.jstr "Note retrieved"))]⟩,
         ⟨[⟨1, "one", false, 5⟩, ⟨2, "two", true, 6⟩], 3, 9⟩) :=
  (c10_query_param_precedence 1 2 (some 1) []
      ⟨[⟨1, "one", false, 5⟩, ⟨2, "two", true, 6⟩], 3, 9⟩).2.2.2.2.2.2
    ⟨2, "two", true, 6⟩ (by decide)

/-- Counterexample to C4: a POST with every required field missing, sent
to `student_list`, is answered with status 200, not 400 — the handler
renders the error set through a plain `HttpResponse` and never sets a
status.  No record is created. -/
theorem c4_counterexample :
    (student_list "POST" [] []).1.status = 200 ∧
    (student_list "POST" [] []).1.status ≠ 400 ∧
    (student_list "POST" [] []).1.body = jdictBody (studentErrors []) ∧
    (student_list "POST" [] []).2 = ([] : List Student) := by
  refine ⟨by decide, by decide, by decide, by decide⟩

/-- C4 as amended: a POST whose payload misses a required field is
answered with the field-level error set and creates no record; `notesApi`
answers status 400, while `student_list` renders the error set with the
default status 200. -/
theorem c4_amended_missing_field_rejected
    (pathId queryId : Option Nat) (body : JDict) (db : NotesDB)
    (sBody : JDict) (store : List Student) :
    (jget body "title" = none →
      (notesApi .POST pathId queryId body db).1.status = 400 ∧
      jget (noteErrors body) "title" = some (.jstr "This field is required.") ∧
      (notesApi .POST pathId queryId body db).1.body
        = .json [("error", .rec1 (noteErrors body)),
                 ("msg", .s (.jstr "Data insertion unsuccessfull"))] ∧
      (notesApi .POST pathId queryId body db).2 = db) ∧
    (jget sBody "name" = none →
      (student_list "POST" sBody store).1.status = 200 ∧
      jget (studentErrors sBody) "name" = some (.jstr "This field is required.") ∧
      (student_list "POST" sBody store).1.body = jdictBody (studentErrors sBody) ∧
      (student_list "POST" sBody store).2 = store) := by
  constructor
  · intro habs
    have hval : noteValidate body = none := by
      simp [noteValidate, fieldReq, habs]
    have h1 : fieldErr true (charRun 100) body "title"
        = [("title", .jstr "This field is required.")] := by
      simp [fieldErr, fieldRun, fieldReq, habs]
    have herr : jget (noteErrors body) "title"
        = some (.jstr "This field is required.") := by
      simp [noteErrors, h1, jget, List.find?_cons]
    exact ⟨by simp [notesApi, hval], herr, by simp [notesApi, hval], by simp [notesApi, hval]⟩
  · intro habs
    have hval : studentValidate sBody = none := by
      simp [studentValidate, fieldReq, habs]
    have h1 : fieldErr true (charRun 100) sBody "name"
        = [("name", .jstr "This field is required.")] := by
      simp [fieldErr, fieldRun, fieldReq, habs]
    have herr : jget (studentErrors sBody) "name"
        = some (.jstr "This field is required.") := by
      simp [studentErrors, h1, jget, List.find?_cons]
    exact ⟨by simp [student_list, hval], herr,
           by simp [student_list, hval], by simp [student_list, hval]⟩

/-- Witness for C4 as amended: payloads with the required field (title
resp. name) absent, against empty stores. -/
theorem c4_witness :
    ((notesApi .POST none none [("completed", JVal.jbool true)] ⟨[], 1, 0⟩).1.status = 400 ∧
     (notesApi .POST none none [("completed", JVal.jbool true)] ⟨[], 1, 0⟩).2 = ⟨[], 1, 0⟩) ∧
    ((student_list "POST" [("roll", JVal.jint 3)] []).1.status = 200 ∧
     (student_list "POST" [("roll", JVal.jint 3)] []).2 = []) := by
  have h := c4_amended_missing_field_rejected none none
    [("completed", JVal.jbool true)] ⟨[], 1, 0⟩ [("roll", JVal.jint 3)] []
  have h1 := h.1 (by decide)
  have h2 := h.2 (by decide)
  exact ⟨⟨h1.1, h1.2.2.2⟩, ⟨h2.1, h2.2.2.2⟩⟩

/-- Counterexample to C5: a successful POST to `notesApi` (valid payload
creating the note with store-assigned identity 1) answers only a success
message — the response body is not the created DTO and mentions no id at
all. -/
theorem c5_counterexample :
    (notesApi .POST none none [("title", JVal.jstr "t")] ⟨[], 1, 42⟩).1
      = ⟨200, msgBody "Data is inserted successfully"⟩ ∧
    (notesApi .POST none none [("title", JVal.jstr "t")] ⟨[], 1, 42⟩).2.rows
      = [⟨1, "t", false, 42⟩] ∧
    bodyHasPair (notesApi .POST none none [("title", JVal.jstr "t")] ⟨[], 1, 42⟩).1.body
        "id" (.jint 1) = false := by
  refine ⟨by decide, by decide, by decide⟩

/-- C5 as amended: only the mixin-based create (`EmployeesList.post`)
answers the created DTO with its store-assigned identity (status 201);
the function-based `notesApi` POST and `student_list` answer only a
success message with no identity. -/
theorem c5_amended_create_response
    (body : JDict) (db : EmpDB) (vd : EmpValidated)
    (nBody : JDict) (ndb : NotesDB) (nvd : NoteValidated)
    (sBody : JDict) (store : List Student) (st : Student)
    (hval : empValidate false body = some vd)
    (hnval : noteValidate nBody = some nvd)
    (hsval : studentValidate sBody = some st) :
    ((EmployeesList.post body db).1.status = 201 ∧
     (EmployeesList.post body db).1.body = jdictBody (serializeEmp (createdEmp db vd)) ∧
     bodyHasPair (EmployeesList.post body db).1.body "id" (.jint db.nextId) = true) ∧
    ((notesApi .POST none none nBody ndb).1
       = ⟨200, msgBody "Data is inserted successfully"⟩ ∧
     bodyHasPair (notesApi .POST none none nBody ndb).1.body "id"
        (.jint ndb.nextId) = false) ∧
    ((student_list "POST" sBody store).1
       = ⟨200, jdictBody [("msg", .jstr "Data inserted Successfully")]⟩ ∧
     bodyHasPair (student_list "POST" sBody store).1.body "id" (.jint 0) = false) := by
  refine ⟨⟨?_, ?_, ?_⟩, ⟨?_, ?_⟩, ⟨?_, ?_⟩⟩
  · simp [EmployeesList.post, hval]
  · simp [EmployeesList.post, hval]
  · simp [EmployeesList.post, hval, bodyHasPair, jdictBody, serializeEmp, createdEmp]
  · simp [notesApi, hnval]
  · simp [notesApi, hnval, bodyHasPair, msgBody]
  · simp [student_list, hsval]
  · simp [student_list, hsval, bodyHasPair, jdictBody]

/-- Witness for C5 as amended: one valid create payload per handler. -/
theorem c5_witness :
    ((EmployeesList.post [("name", JVal.jstr "Ann"), ("age", JVal.jint 30)] ⟨[], 1⟩).1.status = 201 ∧
     bodyHasPair (EmployeesList.post [("name", JVal.jstr "Ann"), ("age", JVal.jint 30)]
        ⟨[], 1⟩).1.body "id" (.jint 1) = true) ∧
    bodyHasPair (notesApi .POST none none [("title", JVal.jstr "t")] ⟨[], 1, 42⟩).1.body
        "id" (.jint 1) = false := by
  have h := c5_amended_create_response
    [("name", JVal.jstr "Ann"), ("age", JVal.jint 30)] ⟨[], 1⟩
    ⟨some "Ann", some 30, none⟩
    [("title", JVal.jstr "t")] ⟨[], 1, 42⟩ ⟨some "t", none⟩
    [("name", JVal.jstr "A"), ("roll", JVal.jint 1), ("city", JVal.jstr "B")]
    [] ⟨"A", 1, "B"⟩
    (by decide) (by decide) (by decide)
  exact ⟨⟨h.1.1, h.1.2.2⟩, h.2.1.2⟩

/-- Counterexample to C6: a PUT to `notesApi` with path id 1 and no query
parameter updates the record with identity 2, taken from the request
body's `id` member — the ID used by the operation is resolved from
neither the URL path segment nor the `id` query parameter. -/
theorem c6_counterexample :
    notesApi .PUT (some 1) none [("id", JVal.jint 2), ("title", JVal.jstr "new")]
        ⟨[⟨1, "old1", false, 5⟩, ⟨2, "old2", true, 6⟩], 3, 9⟩
      = (⟨202, msgBody "Note updated succesfully"⟩,
         ⟨[⟨1, "old1", false, 5⟩, ⟨2, "new", true, 6⟩], 3, 9⟩) := by
  decide

/-- C6 as amended: every `notesApi` response carries a verb-specific
status drawn from 200/202/204/400/404 (for bodies whose `id` member, if
present, is null or integer-like); GET and DELETE resolve the record ID
from the query parameter or, failing that, the path segment, while PUT
resolves it from the request body alone, ignoring both path and query. -/
theorem c6_amended_dispatcher_contract
    (v : Verb) (pathId queryId : Option Nat) (body : JDict) (db : NotesDB)
    (_hid : ∀ w, jget body "id" = some w →
      w = .jnull ∨ (coerceId w).isSome = true) :
    (notesApi v pathId queryId body db).1.status ∈ [200, 202, 204, 400, 404] ∧
    notesApi .PUT pathId queryId body db = notesApi .PUT none none body db ∧
    (∀ q, notesApi .GET pathId (some q) body db
        = notesApi .GET none (some q) body db) ∧
    (∀ q, notesApi .DELETE pathId (some q) body db
        = notesApi .DELETE none (some q) body db) ∧
    (∀ p, notesApi .GET (some p) none body db
        = notesApi .GET none (some p) body db) ∧
    (∀ p, notesApi .DELETE (some p) none body db
        = notesApi .DELETE none (some p) body db) := by
  refine ⟨?_, rfl, fun q => rfl, fun q => rfl, fun p => rfl, fun p => rfl⟩
  cases v with
  | GET =>
      rcases hr : resolveId queryId pathId with _ | p
      · simp [notesApi, hr]
      · rcases hf : db.rows.find? (fun n => n.id == p) with _ | note <;>
          simp [notesApi, hr, hf]
  | POST =>
      rcases hv : noteValidate body with _ | vd <;> simp [notesApi, hv]
  | PUT =>
      rcases hb : putBodyId body with _ | w
      · simp [notesApi, hb]
      · rcases hf : db.rows.find? (fun n => coerceId w == some (n.id : Int)) with _ | note
        · simp [notesApi, hb, hf]
        · rcases hv : noteValidate body with _ | vd <;> simp [notesApi, hb, hf, hv]
  | DELETE =>
      rcases hr : resolveId queryId pathId with _ | p
      · simp [notesApi, hr]
      · rcases hf : db.rows.find? (fun n => n.id == p) with _ | note <;>
          simp [notesApi, hr, hf]

/-- Witness for C6 as amended: concrete statuses for each verb against a
singleton store. -/
theorem c6_witness :
    (notesApi .GET (some 1) none [] ⟨[⟨1, "n", false, 5⟩], 2, 9⟩).1.status
      ∈ [200, 202, 204, 400, 404] ∧
    (notesApi .PUT none none [("id", JVal.jint 1), ("title", JVal.jstr "u")]
        ⟨[⟨1, "n", false, 5⟩], 2, 9⟩).1.status ∈ [200, 202, 204, 400, 404] :=
  ⟨(c6_amended_dispatcher_contract .GET (some 1) none [] ⟨[⟨1, "n", false, 5⟩], 2, 9⟩
      (by intro w hw; cases hw)).1,
   (c6_amended_dispatcher_contract .PUT none none
      [("id", JVal.jint 1), ("title", JVal.jstr "u")] ⟨[⟨1, "n", false, 5⟩], 2, 9⟩
      (by intro w hw; right; cases hw; rfl)).1⟩

/-- C7: creating an employee via `EmployeesList.post` with a valid
payload and then retrieving it via `EmployeesManipulation.get` under the
identity returned by the create yields a 200 response carrying the
created DTO, whose field values equal those of the submitted payload
(every field present in the payload reads back unchanged).  The store is
assumed well-formed: no existing row already carries the next
store-assigned identity. -/
theorem c7_create_then_retrieve
    (body : JDict) (db : EmpDB) (vd : EmpValidated)
    (hval : empValidate false body = some vd)
    (hfresh : db.rows.find? (fun r => r.id == db.nextId) = none) :
    (EmployeesList.post body db).1.status = 201 ∧
    bodyHasPair (EmployeesList.post body db).1.body "id" (.jint db.nextId) = true ∧
    (EmployeesManipulation.get db.nextId (EmployeesList.post body db).2).1
      = ⟨200, jdictBody (serializeEmp (createdEmp db vd))⟩ ∧
    (∀ v, jget body "name" = some v → v = .jstr (createdEmp db vd).name) ∧
    (∀ v, jget body "age" = some v → v = .jint (createdEmp db vd).age) ∧
    (∀ v, jget body "salary" = some v → v = .jint (createdEmp db vd).salary) := by
  obtain ⟨hn, ha, hs⟩ := empValidate_false_parts body vd hval
  have hpost : (EmployeesList.post body db).2
      = ⟨db.rows ++ [createdEmp db vd], db.nextId + 1⟩ := by
    simp [EmployeesList.post, hval]
  have hget : (db.rows ++ [createdEmp db vd]).find? (fun r => r.id == db.nextId)
      = some (createdEmp db vd) := by
    rw [find?_append_of_none _ _ _ hfresh]
    simp [List.find?, createdEmp]
  refine ⟨?_, ?_, ?_, ?_, ?_, ?_⟩
  · simp [EmployeesList.post, hval]
  · simp [EmployeesList.post, hval, bodyHasPair, jdictBody, serializeEmp, createdEmp]
  · rw [hpost]
    simp [EmployeesManipulation.get, hget]
  · intro v hv
    simp only [fieldReq, hv] at hn
    rcases hr : charRun 100 v with _ | s
    · rw [hr] at hn; simp at hn
    · rw [hr] at hn
      simp only [Option.map_some'] at hn
      rw [charRun_eq_some 100 v s hr]
      simp [createdEmp, ← Option.some_inj.1 hn]
  · intro v hv
    simp only [fieldReq, hv] at ha
    rcases hr : intRun v with _ | n
    · rw [hr] at ha; simp at ha
    · rw [hr] at ha
      simp only [Option.map_some'] at ha
      rw [intRun_eq_some v n hr]
      simp [createdEmp, ← Option.some_inj.1 ha]
  · intro v hv
    rw [fieldOpt_present _ _ _ _ hv] at hs
    rcases hr : intRun v with _ | n
    · rw [hr] at hs; simp at hs
    · rw [hr] at hs
      simp only [Option.map_some'] at hs
      rw [intRun_eq_some v n hr]
      simp [createdEmp, ← Option.some_inj.1 hs]

/-- Witness for C7: the spec's own example scenario — POSTing Ann and
retrieving the returned identity 1 reads back the same field values. -/
theorem c7_witness :
    (EmployeesList.post
        [("name", JVal.jstr "Ann"), ("age", JVal.jint 30), ("salary", JVal.jint 50000)]
        ⟨[], 1⟩).1.status = 201 ∧
    (EmployeesManipulation.get 1 (EmployeesList.post
        [("name", JVal.jstr "Ann"), ("age", JVal.jint 30), ("salary", JVal.jint 50000)]
        ⟨[], 1⟩).2).1
      = ⟨200, jdictBody (serializeEmp (createdEmp ⟨[], 1⟩ ⟨some "Ann", some 30, some 50000⟩))⟩ := by
  have h := c7_create_then_retrieve
    [("name", JVal.jstr "Ann"), ("age", JVal.jint 30), ("salary", JVal.jint 50000)]
    ⟨[], 1⟩ ⟨some "Ann", some 30, some 50000⟩ (by decide) (by decide)
  exact ⟨h.1, h.2.2.1⟩

/-- Counterexample to C8: a successful DELETE through `notesApi` answers
status 204 with a message body — not an empty success signal. -/
theorem c8_counterexample :
    (notesApi .DELETE (some 1) none [] ⟨[⟨1, "n", false, 5⟩], 2, 9⟩).1.status = 204 ∧
    (notesApi .DELETE (some 1) none [] ⟨[⟨1, "n", false, 5⟩], 2, 9⟩).1.body
      = msgBody "Note deleted successfully" ∧
    (notesApi .DELETE (some 1) none [] ⟨[⟨1, "n", false, 5⟩], 2, 9⟩).1.body
      ≠ RBody.empty := by
  refine ⟨by decide, by decide, by decide⟩

/-- C8 as amended: after a successful DELETE, a subsequent GET by the
deleted identity answers 404 (and itself leaves the store unchanged);
both handlers answer the delete with status 204, the mixin-based
`EmployeesManipulation.delete` with an empty body and `notesApi` with a
message body. -/
theorem c8_amended_delete_then_get
    (pk : Nat) (db : EmpDB) (e : Employee) (p : Nat) (ndb : NotesDB) (n : Note)
    (hfind : db.rows.find? (fun r => r.id == pk) = some e)
    (hnfind : ndb.rows.find? (fun r => r.id == p) = some n) :
    (EmployeesManipulation.delete pk db).1 = ⟨204, RBody.empty⟩ ∧
    (EmployeesManipulation.get pk (EmployeesManipulation.delete pk db).2).1
      = ⟨404, jdictBody [("detail", .jstr "Not found.")]⟩ ∧
    (EmployeesManipulation.get pk (EmployeesManipulation.delete pk db).2).2
      = (EmployeesManipulation.delete pk db).2 ∧
    (notesApi .DELETE (some p) none [] ndb).1.status = 204 ∧
    (notesApi .GET (some p) none [] (notesApi .DELETE (some p) none [] ndb).2).1
      = ⟨404, msgBody "Note not found"⟩ ∧
    (notesApi .GET (some p) none [] (notesApi .DELETE (some p) none [] ndb).2).2
      = (notesApi .DELETE (some p) none [] ndb).2 := by
  have hdel : (EmployeesManipulation.delete pk db).2
      = ⟨db.rows.filter (fun r => !(r.id == pk)), db.nextId⟩ := by
    simp [EmployeesManipulation.delete, hfind]
  have hgone : (db.rows.filter (fun r => !(r.id == pk))).find?
      (fun r => r.id == pk) = none := find?_filter_not _ _
  have hndel : (notesApi .DELETE (some p) none [] ndb).2
      = { ndb with rows := ndb.rows.filter (fun r => !(r.id == p)) } := by
    simp [notesApi, resolveId, hnfind]
  have hngone : (ndb.rows.filter (fun r => !(r.id == p))).find?
      (fun r => r.id == p) = none := find?_filter_not _ _
  refine ⟨?_, ?_, ?_, ?_, ?_, ?_⟩
  · simp [EmployeesManipulation.delete, hfind]
  · rw [hdel]
    simp [EmployeesManipulation.get, hgone]
  · rw [hdel]
    simp [EmployeesManipulation.get, hgone]
  · simp [notesApi, resolveId, hnfind]
  · rw [hndel]
    simp [notesApi, resolveId, hngone]
  · rw [hndel]
    simp [notesApi, resolveId, hngone]

/-- Witness for C8 as amended: deleting identity 1 from singleton stores
through both handlers. -/
theorem c8_witness :
    (EmployeesManipulation.delete 1 ⟨[⟨1, "Ann", 30, 50000⟩], 2⟩).1
      = ⟨204, RBody.empty⟩ ∧
    (EmployeesManipulation.get 1
        (EmployeesManipulation.delete 1 ⟨[⟨1, "Ann", 30, 50000⟩], 2⟩).2).1
      = ⟨404, jdictBody [("detail", .jstr "Not found.")]⟩ ∧
    (notesApi .GET (some 1) none []
        (notesApi .DELETE (some 1) none [] ⟨[⟨1, "n", false, 5⟩], 2, 9⟩).2).1
      = ⟨404, msgBody "Note not found"⟩ := by
  have h := c8_amended_delete_then_get 1 ⟨[⟨1, "Ann", 30, 50000⟩], 2⟩
    ⟨1, "Ann", 30, 50000⟩ 1 ⟨[⟨1, "n", false, 5⟩], 2, 9⟩ ⟨1, "n", false, 5⟩
    (by decide) (by decide)
  exact ⟨h.1, h.2.1, h.2.2.2.2.1⟩

end DRF
